import Mathlib

/-!
Verification of the smb235x charger driver
(`drivers/power/supply/qcom/smb235x-charger.c`).

The driver is shallowly embedded: every fallible register read is passed in
as an `Option` (or `Except`) argument (`none`/`error` models a failed bus
transaction), every fallible register write or update is passed in as a
`Bool` success flag, and the mutable `smb235x_chg_chip` state is threaded
explicitly.  C `int` arithmetic is modelled with `Int` together with
`Int.tdiv` (C division truncates toward zero) and a `u8` store is modelled
with `Int.emod · 256` (C conversion of an `int` to `u8`).

The register bit layout and the numeric values of the `power_supply` enums
live in headers that are not part of the sources under review
(`smb235x-charger.h`, `linux/power_supply.h`); accordingly a status register
is embedded in decoded form (one boolean per bit the driver tests, one
enum constructor per named status value), and the `POWER_SUPPLY_TYPE_*` /
`POWER_SUPPLY_USB_TYPE_*` labels used by the driver are embedded as the
constructors of one inductive type `PsyVal`.
-/

/-- Constants from the top of smb235x-charger.c. -/
def FLOAT_VOLTAGE_BASE_MV : Int := 7200

def FLOAT_VOLTAGE_STEP_MV : Int := 20

def CURRENT_STEP_MA : Int := 50

def MICRO_TO_MILLI : Int := 1000

def CDP_CURRENT_UA : Int := 1500000

def DCP_CURRENT_UA : Int := 1500000

def HVDCP_CURRENT_UA : Int := 3000000

def SDP_500_MA : Int := 500000

def BASED_VOLTAGE_UV : Int := 5000000

def QC3_DEFAULT_VOLTAGE_UV : Int := 9000000

def QC3_VOLTAGE_STEPS_UV : Int := 200000

def VOLTAGE_FORCE_5V_UV : Int := 5000000

def VOLTAGE_FORCE_9V_UV : Int := 9000000

def VOLTAGE_FORCE_12V_UV : Int := 12000000

/-- C conversion of an `int` value to `u8`: reduction modulo 256. -/
def u8ofInt (x : Int) : Nat := (Int.emod x 256).toNat

/-- Labels of the `power_supply` enum values the driver uses.  In the kernel
these are numeric values of two different enums (`power_supply_type` and
`power_supply_usb_type`); the driver stores both in `int` fields.  No two of
the labels used by this driver share a numeric value in the kernel headers,
so they are embedded as distinct constructors. -/
inductive PsyVal
  | typeUnknown
  | typeUSB
  | typeUSB_CDP
  | typeUSB_DCP
  | typeUSB_FLOAT
  | typeUSB_HVDCP
  | typeUSB_HVDCP_3
  | usbUnknown
  | usbSDP
  | usbDCP
  | usbCDP
  | usbC
  | usbPD
  | usbPD_PPS
deriving DecidableEq, Repr

/-- The fields of `struct smb235x_chg_chip` that the embedded operations
read or mutate. -/
structure Chip where
  charger_type : PsyVal
  usb_type : PsyVal
  hvdcp3_voltage_uv : Int
  based_hvdcp_voltage_uv : Int
  hvdcp_pulse_count_max : Int
  sdp_icl_ua : Int
  pd_active : Bool
  float_volt_uv : Int
  fastchg_curr_ua : Int
  max_fcc_ua : Int
  trickle_charge_current_ua : Int
  pre_charge_current_ua : Int
  max_pre_charge_current_ua : Int
deriving DecidableEq, Repr

/-- Decoded content of DCDC_POWER_PATH_STATUS_REG: the two bits
smb235x_get_usb_online tests. -/
structure PowerPathStatus where
  use_usbin : Bool
  valid_input_power_source : Bool
deriving DecidableEq, Repr

/-- smb235x_get_usb_online: reads DCDC_POWER_PATH_STATUS_REG; on a failed
read it returns false, otherwise it returns the conjunction of the
USE_USBIN and VALID_INPUT_POWER_SOURCE status bits. -/
def smb235x_get_usb_online (power_path : Option PowerPathStatus) : Bool :=
  match power_path with
  | none => false
  | some s => s.use_usbin && s.valid_input_power_source

/-- Decoded content of USB_APSP_RESULT_STATUS_REG after masking with
APSD_RESULT_STATUS_MASK: the seven charger-class bits the driver tests. -/
structure ApsdResult where
  float_bit : Bool
  dcp_bit : Bool
  ocp_bit : Bool
  cdp_bit : Bool
  sdp_bit : Bool
  qc3_bit : Bool
  qc2_bit : Bool
deriving DecidableEq, Repr

/-- The chain of seven unconditional-overwrite `if` statements at the end of
smb235x_get_chg_type, in source order: FLOAT, DCP, OCP, CDP, SDP, QC 3.0,
QC 2.0. -/
def applyApsdBits (chip : Chip) (s : ApsdResult) : Chip :=
  let c := chip
  let c := if s.float_bit then
    { c with charger_type := PsyVal.typeUSB_FLOAT, usb_type := PsyVal.usbUnknown } else c
  let c := if s.dcp_bit then
    { c with charger_type := PsyVal.typeUSB_DCP, usb_type := PsyVal.usbDCP } else c
  let c := if s.ocp_bit then
    { c with charger_type := PsyVal.typeUSB_DCP, usb_type := PsyVal.usbDCP } else c
  let c := if s.cdp_bit then
    { c with charger_type := PsyVal.typeUSB_CDP, usb_type := PsyVal.usbCDP } else c
  let c := if s.sdp_bit then
    { c with charger_type := PsyVal.typeUSB, usb_type := PsyVal.usbSDP } else c
  let c := if s.qc3_bit then
    { c with charger_type := PsyVal.typeUSB_HVDCP_3, usb_type := PsyVal.usbDCP } else c
  let c := if s.qc2_bit then
    { c with charger_type := PsyVal.typeUSB_HVDCP, usb_type := PsyVal.usbDCP } else c
  c

/-- Inputs of one run of smb235x_get_chg_type: the power-path read used by
smb235x_get_usb_online, the tcpm USB_TYPE query (`none` models a failed or
absent peer), and the APSD result status read. -/
structure DetectInput where
  power_path : Option PowerPathStatus
  tcpm_usb_type : Option PsyVal
  apsd_result : Option ApsdResult

/-- smb235x_get_chg_type.  Returns `none` exactly when the function returns
a negative rc (the APSD result register read failed); otherwise `some` of
the updated chip.  Offline ports yield UNKNOWN with rc 0; a successful tcpm
query with a value other than POWER_SUPPLY_USB_TYPE_C short-circuits the
autonomous detection. -/
def smb235x_get_chg_type (chip : Chip) (inp : DetectInput) : Option Chip :=
  if smb235x_get_usb_online inp.power_path = false then
    some { chip with charger_type := PsyVal.typeUnknown, usb_type := PsyVal.usbUnknown }
  else
    match inp.tcpm_usb_type with
    | some v =>
        if v ≠ PsyVal.usbC then
          some { chip with charger_type := v, usb_type := v }
        else
          match inp.apsd_result with
          | none => none
          | some s => some (applyApsdBits chip s)
    | none =>
        match inp.apsd_result with
        | none => none
        | some s => some (applyApsdBits chip s)

/-- Success flags for the pulse-train writes of smb235x_set_hvdcp3_voltage:
`inc_ok i` (resp. `dec_ok i`) is the outcome of the i-th SINGLE_INCREMENT
(resp. SINGLE_DECREMENT) update of USB_CMD_HVDCP_2_REG. -/
structure HvdcpEnv where
  inc_ok : Nat → Bool
  dec_ok : Nat → Bool

/-- Result of smb235x_set_hvdcp3_voltage: the chip state on return, whether
rc was 0, and how many increment / decrement pulse writes succeeded. -/
structure HvdcpOut where
  chip : Chip
  rcOk : Bool
  inc_pulses : Nat
  dec_pulses : Nat

/-- The `while (hvdcp_pulse_count--)` loop: attempts up to `n` pulse writes,
stopping at the first failure.  Returns the number of successful pulse
writes and whether all `n` succeeded. -/
def runPulses : Nat → (Nat → Bool) → Nat × Bool
  | 0, _ => (0, true)
  | n + 1, ok =>
      if ok 0 then
        let r := runPulses n (fun i => ok (i + 1))
        (r.1 + 1, r.2)
      else
        (0, false)

/-- smb235x_set_hvdcp3_voltage.  Targets below BASED_VOLTAGE_UV are a
no-op.  Above the stored base voltage the pulse count
(target − base)/200 mV is clamped to hvdcp_pulse_count_max and increment
pulses are issued; otherwise (hvdcp3_voltage_uv − target)/200 mV decrement
pulses are issued with no clamp.  On a pulse-write failure the voltage
fields keep their pre-call values; on success both are set to the target.
(The C loop condition misbehaves on a negative count; the embedding issues
`Int.toNat count` pulses, which agrees with the source whenever the count
is non-negative, as it is in every state the driver itself constructs.) -/
def smb235x_set_hvdcp3_voltage (chip : Chip) (voltage_uv : Int) (env : HvdcpEnv) : HvdcpOut :=
  if voltage_uv < BASED_VOLTAGE_UV then
    ⟨chip, true, 0, 0⟩
  else if chip.based_hvdcp_voltage_uv < voltage_uv then
    let count0 := (voltage_uv - chip.based_hvdcp_voltage_uv).tdiv QC3_VOLTAGE_STEPS_UV
    let count := if chip.hvdcp_pulse_count_max < count0 then chip.hvdcp_pulse_count_max else count0
    let r := runPulses count.toNat env.inc_ok
    if r.2 then
      ⟨{ chip with hvdcp3_voltage_uv := voltage_uv, based_hvdcp_voltage_uv := voltage_uv },
        true, r.1, 0⟩
    else
      ⟨chip, false, r.1, 0⟩
  else
    let count := (chip.hvdcp3_voltage_uv - voltage_uv).tdiv QC3_VOLTAGE_STEPS_UV
    let r := runPulses count.toNat env.dec_ok
    if r.2 then
      ⟨{ chip with hvdcp3_voltage_uv := voltage_uv, based_hvdcp_voltage_uv := voltage_uv },
        true, 0, r.1⟩
    else
      ⟨chip, false, 0, r.1⟩

/-- Success flags for the three register operations of smb235x_set_icl_sw:
the USBIN_LOAD_CFG_REG update, the USB_CMD_ICL_OVERRIDE_REG update, and the
USBIN_CURRENT_LIMIT_CFG_REG write. -/
structure IclEnv where
  load_cfg_ok : Bool
  override_ok : Bool
  write_ok : Bool
deriving DecidableEq, Repr

/-- Result of smb235x_set_icl_sw: whether rc was 0, and the u8 code handed
to the USBIN_CURRENT_LIMIT_CFG_REG write (`none` when one of the two
override-enable updates failed, so that the write was never attempted). -/
structure IclOut where
  rcOk : Bool
  code_written : Option Nat
deriving DecidableEq, Repr

/-- smb235x_set_icl_sw: `u8 stat = icl_ma / CURRENT_STEP_MA`, then the two
override-enable updates (early return on failure), then the limit write. -/
def smb235x_set_icl_sw (icl_ma : Int) (env : IclEnv) : IclOut :=
  let stat := u8ofInt (icl_ma.tdiv CURRENT_STEP_MA)
  if env.load_cfg_ok = false then ⟨false, none⟩
  else if env.override_ok = false then ⟨false, none⟩
  else ⟨env.write_ok, some stat⟩

/-- Inputs of one run of smb235x_handle_apsd_done: the detection reads, the
tcpm CURRENT_MAX query, the FORCE_9V_BIT update outcome, the HVDCP3 pulse
write outcomes, and the smb235x_set_icl_sw write outcomes. -/
structure ApsdEnv where
  detect : DetectInput
  tcpm_current_max : Option Int
  force9v_ok : Bool
  inc_ok : Nat → Bool
  dec_ok : Nat → Bool
  icl : IclEnv

/-- Result of smb235x_handle_apsd_done: the chip state on return, the icl_ma
argument handed to smb235x_set_icl_sw (`none` when an early return skipped
it), and the outcome of that call. -/
structure ApsdOut where
  chip : Chip
  icl_call : Option Int
  icl_out : Option IclOut

/-- The per-type `switch (chip->charger_type)` of smb235x_handle_apsd_done.
Returns `none` on the early return taken when the HVDCP2 FORCE_9V update
fails, otherwise the selected icl_ma together with the (possibly updated,
in the HVDCP3 branch) chip state. -/
def apsdIclTable (chip : Chip) (env : ApsdEnv) : Option (Int × Chip) :=
  match chip.charger_type with
  | PsyVal.typeUSB =>
      if chip.sdp_icl_ua ≠ 0 then
        some (chip.sdp_icl_ua.tdiv MICRO_TO_MILLI, chip)
      else
        some (SDP_500_MA.tdiv MICRO_TO_MILLI, chip)
  | PsyVal.typeUSB_CDP => some (CDP_CURRENT_UA.tdiv MICRO_TO_MILLI, chip)
  | PsyVal.typeUSB_DCP => some (DCP_CURRENT_UA.tdiv MICRO_TO_MILLI, chip)
  | PsyVal.typeUSB_FLOAT => some (SDP_500_MA.tdiv MICRO_TO_MILLI, chip)
  | PsyVal.typeUSB_HVDCP =>
      if env.force9v_ok then some (HVDCP_CURRENT_UA.tdiv MICRO_TO_MILLI, chip) else none
  | PsyVal.typeUSB_HVDCP_3 =>
      let r := smb235x_set_hvdcp3_voltage chip chip.hvdcp3_voltage_uv ⟨env.inc_ok, env.dec_ok⟩
      some (HVDCP_CURRENT_UA.tdiv MICRO_TO_MILLI, r.chip)
  | _ => some (SDP_500_MA.tdiv MICRO_TO_MILLI, chip)

/-- smb235x_handle_apsd_done.  A cleared done bit is a no-op; a failed
detection returns with the chip unchanged; when the detected type is not
HVDCP3 the based voltage is re-baselined to BASED_VOLTAGE_UV; then the
per-type table selects icl_ma; then, when pd_active, the tcpm CURRENT_MAX
value (divided to mA) unconditionally replaces the table value, a failed
query being an early return; finally smb235x_set_icl_sw applies the
result. -/
def smb235x_handle_apsd_done (chip : Chip) (done : Bool) (env : ApsdEnv) : ApsdOut :=
  if done = false then ⟨chip, none, none⟩ else
  match smb235x_get_chg_type chip env.detect with
  | none => ⟨chip, none, none⟩
  | some c1 =>
    let c2 := if c1.charger_type ≠ PsyVal.typeUSB_HVDCP_3 then
        { c1 with based_hvdcp_voltage_uv := BASED_VOLTAGE_UV } else c1
    match apsdIclTable c2 env with
    | none => ⟨c2, none, none⟩
    | some (icl0, c3) =>
        if c3.pd_active = true then
          match env.tcpm_current_max with
          | none => ⟨c3, none, none⟩
          | some v =>
              ⟨c3, some (v.tdiv MICRO_TO_MILLI),
                some (smb235x_set_icl_sw (v.tdiv MICRO_TO_MILLI) env.icl)⟩
        else
          ⟨c3, some icl0, some (smb235x_set_icl_sw icl0 env.icl)⟩

/-- smb235x_enable_apsd (initialization): sets hvdcp3_voltage_uv and
based_hvdcp_voltage_uv to their defaults, reads the masked
HVDCP_PULSE_COUNT_MAX_QC3P0 field (the input is the already-masked value),
then performs the USBIN_OPTIONS_1_CFG update and the APSD rerun. -/
def smb235x_enable_apsd (chip : Chip) (pulse_count_field : Option Nat)
    (options_ok : Bool) (rerun_ok : Bool) : Chip × Bool :=
  let c := { chip with
    hvdcp3_voltage_uv := QC3_DEFAULT_VOLTAGE_UV,
    based_hvdcp_voltage_uv := BASED_VOLTAGE_UV }
  match pulse_count_field with
  | none => (c, false)
  | some n =>
      let c := { c with hvdcp_pulse_count_max := (n : Int) }
      if options_ok = false then (c, false) else (c, rerun_ok)

/-- Decoded values of BATTERY_CHARGER_STATUS_1_REG after masking with
BATTERY_CHARGER_STATUS_MASK: the named charge states the driver switches
over, plus one constructor for a masked value matching none of them (the
default arms of the switches). -/
inductive ChgStat
  | TRICKLE_CHARGE
  | PRE_CHARGE
  | FULLON_CHARGE
  | TAPER_CHARGE
  | TERMINATE_CHARGE
  | INHIBIT_CHARGE
  | PAUSE_CHARGE
  | DISABLE_CHARGE
  | UNRECOGNIZED
deriving DecidableEq, Repr

/-- The values of the battery STATUS property the driver produces. -/
inductive BattStatus
  | FULL
  | DISCHARGING
  | CHARGING
  | NOT_CHARGING
  | UNKNOWN
deriving DecidableEq, Repr

/-- smb235x_get_prop_battery_status.  Returns `none` when the
BATTERY_CHARGER_STATUS_1 read fails.  Offline: TERMINATE_CHARGE and
INHIBIT_CHARGE map to FULL, everything else to DISCHARGING.  Online: the
fixed state table. -/
def smb235x_get_prop_battery_status (power_path : Option PowerPathStatus)
    (status_read : Option ChgStat) : Option BattStatus :=
  let usb_online := smb235x_get_usb_online power_path
  match status_read with
  | none => none
  | some stat =>
      if usb_online = false then
        match stat with
        | ChgStat.TERMINATE_CHARGE => some BattStatus.FULL
        | ChgStat.INHIBIT_CHARGE => some BattStatus.FULL
        | _ => some BattStatus.DISCHARGING
      else
        match stat with
        | ChgStat.TRICKLE_CHARGE => some BattStatus.CHARGING
        | ChgStat.PRE_CHARGE => some BattStatus.CHARGING
        | ChgStat.FULLON_CHARGE => some BattStatus.CHARGING
        | ChgStat.TAPER_CHARGE => some BattStatus.CHARGING
        | ChgStat.TERMINATE_CHARGE => some BattStatus.FULL
        | ChgStat.INHIBIT_CHARGE => some BattStatus.NOT_CHARGING
        | ChgStat.PAUSE_CHARGE => some BattStatus.NOT_CHARGING
        | ChgStat.DISABLE_CHARGE => some BattStatus.NOT_CHARGING
        | ChgStat.UNRECOGNIZED => some BattStatus.UNKNOWN

/-- Result of smb235x_set_fv / smb235x_set_fcc: the u8 code handed to the
register write, and whether the write succeeded. -/
structure CfgWriteOut where
  code : Nat
  rcOk : Bool
deriving DecidableEq, Repr

/-- smb235x_set_fv: code = (uv/1000 − 7200) / 20, written to
CHGR_FLOAT_VOLTAGE_CFG_REG. -/
def smb235x_set_fv (vfloat_uv : Int) (write_ok : Bool) : CfgWriteOut :=
  ⟨u8ofInt ((vfloat_uv.tdiv MICRO_TO_MILLI - FLOAT_VOLTAGE_BASE_MV).tdiv FLOAT_VOLTAGE_STEP_MV),
    write_ok⟩

/-- smb235x_set_fcc: code = (ua/1000/50) + 1, written to
CHGR_FAST_CHARGE_CURRENT_CFG_REG. -/
def smb235x_set_fcc (fcc_ua : Int) (write_ok : Bool) : CfgWriteOut :=
  ⟨u8ofInt ((fcc_ua.tdiv MICRO_TO_MILLI).tdiv CURRENT_STEP_MA + 1), write_ok⟩

/-- The two writeable battery properties of smb235x_batt_set_prop, plus a
default for every other property (which yields -EINVAL). -/
inductive BattProp
  | constant_charge_voltage_max
  | constant_charge_current_max
  | unsupported
deriving DecidableEq, Repr

/-- Result of smb235x_batt_set_prop: the chip state on return, whether rc
was non-negative, and the outcome of the register write that was issued. -/
structure BattSetOut where
  chip : Chip
  rcOk : Bool
  fv_write : Option CfgWriteOut
  fcc_write : Option CfgWriteOut

/-- smb235x_batt_set_prop.  The same property is queried from the bms peer
first; when that query succeeds the peer value replaces the caller value.
The cached field (float_volt_uv / fastchg_curr_ua) is assigned before
smb235x_set_fv / smb235x_set_fcc runs, and is not rolled back when the
write fails. -/
def smb235x_batt_set_prop (chip : Chip) (prop : BattProp) (bms_val : Option Int)
    (pval : Int) (write_ok : Bool) : BattSetOut :=
  match prop with
  | BattProp.constant_charge_voltage_max =>
      let v := match bms_val with
        | some b => b
        | none => pval
      let c := { chip with float_volt_uv := v }
      let r := smb235x_set_fv c.float_volt_uv write_ok
      ⟨c, r.rcOk, some r, none⟩
  | BattProp.constant_charge_current_max =>
      let v := match bms_val with
        | some b => b
        | none => pval
      let c := { chip with fastchg_curr_ua := v }
      let r := smb235x_set_fcc c.fastchg_curr_ua write_ok
      ⟨c, r.rcOk, none, some r⟩
  | BattProp.unsupported => ⟨chip, false, none, none⟩

/-- Success flags for the six writes of smb235x_config_chg_current_voltage,
in source order. -/
structure ChgCfgEnv where
  fcc_ok : Bool
  max_fcc_ok : Bool
  fv_ok : Bool
  trickle_ok : Bool
  pre_ok : Bool
  max_pre_ok : Bool
deriving DecidableEq, Repr

/-- Codes handed to the six writes of smb235x_config_chg_current_voltage
(`none` when an earlier failure caused an early return before the write). -/
structure ChgCfgOut where
  rcOk : Bool
  fcc_code : Option Nat
  max_fcc_code : Option Nat
  fv_code : Option Nat
  trickle_code : Option Nat
  pre_code : Option Nat
  max_pre_code : Option Nat
deriving DecidableEq, Repr

/-- smb235x_config_chg_current_voltage: fast-charge and max-fast-charge
codes carry the +1 bias, float voltage is (uv/1000 − 7200)/20, and the
trickle / pre-charge / max-pre-charge codes are ua/1000/50 with no bias.
Each failed write is an early return. -/
def smb235x_config_chg_current_voltage (chip : Chip) (env : ChgCfgEnv) : ChgCfgOut :=
  let fcc := u8ofInt ((chip.fastchg_curr_ua.tdiv MICRO_TO_MILLI).tdiv CURRENT_STEP_MA + 1)
  if env.fcc_ok = false then ⟨false, some fcc, none, none, none, none, none⟩ else
  let mfcc := u8ofInt ((chip.max_fcc_ua.tdiv MICRO_TO_MILLI).tdiv CURRENT_STEP_MA + 1)
  if env.max_fcc_ok = false then ⟨false, some fcc, some mfcc, none, none, none, none⟩ else
  let fv := u8ofInt ((chip.float_volt_uv.tdiv MICRO_TO_MILLI - FLOAT_VOLTAGE_BASE_MV).tdiv
    FLOAT_VOLTAGE_STEP_MV)
  if env.fv_ok = false then ⟨false, some fcc, some mfcc, some fv, none, none, none⟩ else
  let tr := u8ofInt ((chip.trickle_charge_current_ua.tdiv MICRO_TO_MILLI).tdiv CURRENT_STEP_MA)
  if env.trickle_ok = false then ⟨false, some fcc, some mfcc, some fv, some tr, none, none⟩ else
  let pre := u8ofInt ((chip.pre_charge_current_ua.tdiv MICRO_TO_MILLI).tdiv CURRENT_STEP_MA)
  if env.pre_ok = false then
    ⟨false, some fcc, some mfcc, some fv, some tr, some pre, none⟩ else
  let mpre := u8ofInt ((chip.max_pre_charge_current_ua.tdiv MICRO_TO_MILLI).tdiv CURRENT_STEP_MA)
  ⟨env.max_pre_ok, some fcc, some mfcc, some fv, some tr, some pre, some mpre⟩

/-- The kernel DIV_ROUND_CLOSEST macro, instantiated at the signed `int`
types the driver uses. -/
def DIV_ROUND_CLOSEST (x d : Int) : Int :=
  if (0 < x) = (0 < d) then (x + d.tdiv 2).tdiv d else (x - d.tdiv 2).tdiv d

/-- Result of smb235x_update_soc: the u8 SOC code handed to the
CHGR_STEP_CHG_SOC_VBATT_V_REG write (`none` when the bms capacity query
failed and the cycle was aborted), and whether the update bit was
successfully pulsed afterwards. -/
structure SocOut where
  soc_written : Option Nat
  update_pulsed : Bool
deriving DecidableEq, Repr

/-- smb235x_update_soc: reads CAPACITY from the bms peer (failure aborts
the cycle), computes soc = DIV_ROUND_CLOSEST(capacity * 255, 100) into a
u8, writes it, and on success pulses the update bit. -/
def smb235x_update_soc (capacity : Option Int) (soc_write_ok : Bool)
    (update_ok : Bool) : SocOut :=
  match capacity with
  | none => ⟨none, false⟩
  | some c =>
      let soc := u8ofInt (DIV_ROUND_CLOSEST (c * 255) 100)
      if soc_write_ok = false then ⟨some soc, false⟩
      else ⟨some soc, update_ok⟩

/-- Reads of smb235x_get_prop_usb_icl beyond the power-path read: the
ICL_OVERRIDE read is decoded to whether the masked value equals 1, then
one of the two limit registers is read. -/
structure UsbIclReads where
  override_is_one : Option Bool
  limit_read : Option Nat
  icl_max_read : Option Nat

/-- smb235x_get_prop_usb_icl: offline ports report 0 µA with success; online
the current-limit code from USBIN_CURRENT_LIMIT_CFG_REG (override active)
or DCDC_ICL_MAX_STATUS_REG is scaled by 50 mA and then to µA.  `none`
models the negative rc of a failed read. -/
def smb235x_get_prop_usb_icl (power_path : Option PowerPathStatus)
    (r : UsbIclReads) : Option Int :=
  if smb235x_get_usb_online power_path = false then some 0
  else
    match r.override_is_one with
    | none => none
    | some b =>
        if b then
          match r.limit_read with
          | none => none
          | some s => some ((s : Int) * CURRENT_STEP_MA * MICRO_TO_MILLI)
        else
          match r.icl_max_read with
          | none => none
          | some s => some ((s : Int) * CURRENT_STEP_MA * MICRO_TO_MILLI)

/-- Decoded content of USB_QC_CHANGE_STATUS_REG: the three QC voltage
bits. -/
structure QcStatus where
  qc_12v : Bool
  qc_9v : Bool
  qc_5v : Bool
deriving DecidableEq, Repr

/-- smb235x_get_hvdcp2_voltage: returns the decoded QC voltage, or the
negative rc itself when the read fails (the C function returns rc, which
the caller stores as a voltage). -/
def smb235x_get_hvdcp2_voltage (read : Except Int QcStatus) : Int :=
  match read with
  | Except.error rc => rc
  | Except.ok s =>
      if s.qc_12v then VOLTAGE_FORCE_12V_UV
      else if s.qc_9v then VOLTAGE_FORCE_9V_UV
      else if s.qc_5v then VOLTAGE_FORCE_5V_UV
      else VOLTAGE_FORCE_5V_UV

/-- Result of smb235x_get_prop_usb_voltage: whether the returned rc was
negative, and the property value produced. -/
structure UsbVoltOut where
  rc_neg : Bool
  intval : Int
deriving DecidableEq, Repr

/-- smb235x_get_prop_usb_voltage: offline ports report 0 µV with rc 0;
online the value is selected by charger type, then, when pd_active, the
tcpm VOLTAGE_NOW query overrides it (a failed query leaves the value and
makes rc negative). -/
def smb235x_get_prop_usb_voltage (chip : Chip) (power_path : Option PowerPathStatus)
    (qc_read : Except Int QcStatus) (tcpm_vnow : Except Int Int) : UsbVoltOut :=
  if smb235x_get_usb_online power_path = false then ⟨false, 0⟩
  else
    let v :=
      match chip.charger_type with
      | PsyVal.typeUSB_FLOAT => VOLTAGE_FORCE_5V_UV
      | PsyVal.typeUSB_DCP => VOLTAGE_FORCE_5V_UV
      | PsyVal.typeUSB_CDP => VOLTAGE_FORCE_5V_UV
      | PsyVal.typeUSB => VOLTAGE_FORCE_5V_UV
      | PsyVal.typeUSB_HVDCP_3 => chip.hvdcp3_voltage_uv
      | PsyVal.typeUSB_HVDCP => smb235x_get_hvdcp2_voltage qc_read
      | _ => VOLTAGE_FORCE_5V_UV
    if chip.pd_active then
      match tcpm_vnow with
      | Except.ok w => ⟨false, w⟩
      | Except.error _ => ⟨true, v⟩
    else ⟨false, v⟩

/-- Specification-side mapping for claim C4: the charger type assigned by
the last matching bit in the fixed test order FLOAT, DCP, OCP, CDP, SDP,
QC 3.0, QC 2.0. -/
def lastMatchingType (s : ApsdResult) : PsyVal :=
  if s.qc2_bit then PsyVal.typeUSB_HVDCP
  else if s.qc3_bit then PsyVal.typeUSB_HVDCP_3
  else if s.sdp_bit then PsyVal.typeUSB
  else if s.cdp_bit then PsyVal.typeUSB_CDP
  else if s.ocp_bit then PsyVal.typeUSB_DCP
  else if s.dcp_bit then PsyVal.typeUSB_DCP
  else PsyVal.typeUSB_FLOAT

/-- At least one of the seven tested APSD result bits is set. -/
def hasApsdBit (s : ApsdResult) : Bool :=
  s.float_bit || s.dcp_bit || s.ocp_bit || s.cdp_bit || s.sdp_bit || s.qc3_bit || s.qc2_bit

/-- A concrete chip state with the compiled-in defaults of
smb235x_parse_dt and an idle detection state. -/
def chipDefaults : Chip :=
  { charger_type := PsyVal.typeUnknown
    usb_type := PsyVal.usbUnknown
    hvdcp3_voltage_uv := 9000000
    based_hvdcp_voltage_uv := 5000000
    hvdcp_pulse_count_max := 1
    sdp_icl_ua := 0
    pd_active := false
    float_volt_uv := 8800000
    fastchg_curr_ua := 3250000
    max_fcc_ua := 3250000
    trickle_charge_current_ua := 50000
    pre_charge_current_ua := 750000
    max_pre_charge_current_ua := 1000000 }

/-- Pulse environment in which every pulse write succeeds. -/
def allPulsesOk : HvdcpEnv := ⟨fun _ => true, fun _ => true⟩

/-- Icl environment in which all three register operations succeed. -/
def iclAllOk : IclEnv := ⟨true, true, true⟩

/-- Config environment in which all six writes succeed. -/
def cfgAllOk : ChgCfgEnv := ⟨true, true, true, true, true, true⟩

/-- An APSD result status in which only the DCP bit is set. -/
def dcpOnlyBits : ApsdResult := ⟨false, true, false, false, false, false, false⟩

/-- An APSD-done environment: port online, tcpm USB_TYPE query failed,
autonomous result DCP, tcpm CURRENT_MAX query failed, all writes fine. -/
def envDcpNoPd : ApsdEnv :=
  { detect := ⟨some ⟨true, true⟩, none, some dcpOnlyBits⟩
    tcpm_current_max := none
    force9v_ok := true
    inc_ok := fun _ => true
    dec_ok := fun _ => true
    icl := iclAllOk }

/-- An APSD-done environment like envDcpNoPd but with the tcpm CURRENT_MAX
query reporting 900000 µA. -/
def envDcpPd900 : ApsdEnv :=
  { detect := ⟨some ⟨true, true⟩, none, some dcpOnlyBits⟩
    tcpm_current_max := some 900000
    force9v_ok := true
    inc_ok := fun _ => true
    dec_ok := fun _ => true
    icl := iclAllOk }

/-- Chip state used for the C2 counterexample: a stale HVDCP3 negotiated
voltage of 8.0 V left over from an earlier negotiation. -/
def chipStaleHvdcp3 : Chip := { chipDefaults with hvdcp3_voltage_uv := 8000000 }

/-- Chip state used for the C3 witness: PD negotiation active. -/
def chipPdActive : Chip := { chipDefaults with pd_active := true }

/-- An APSD result status in which both the Float and the DCP bits are
set. -/
def floatDcpBits : ApsdResult := ⟨true, true, false, false, false, false, false⟩

theorem runPulses_fst_le (n : Nat) (ok : Nat → Bool) : (runPulses n ok).1 ≤ n := by
  induction n generalizing ok with
  | zero => exact Nat.le_refl 0
  | succ n ih =>
      unfold runPulses
      by_cases h : ok 0 = true
      · simp only [h, if_true]
        exact Nat.succ_le_succ (ih _)
      · simp only [h, if_false]
        exact Nat.zero_le _

theorem u8ofInt_eq_toNat {x : Int} (h0 : 0 ≤ x) (h1 : x < 256) : u8ofInt x = x.toNat := by
  unfold u8ofInt
  have h : x % (256 : Int) = x := Int.emod_eq_of_lt h0 h1
  rw [show Int.emod x 256 = x % (256 : Int) from rfl, h]

/-- C1 counterexample: with the default post-enable negotiation state
(hvdcp3_voltage_uv = 9.0 V, base = 5.0 V, hvdcp_pulse_count_max = 1), a
step-down request to the 5.0 V target issues 20 decrement pulses, well
above hvdcp_pulse_count_max. -/
theorem hvdcp3_stepdown_unclamped_cex :
    (smb235x_set_hvdcp3_voltage chipDefaults 5000000 allPulsesOk).dec_pulses = 20
    ∧ chipDefaults.hvdcp_pulse_count_max = 1
    ∧ ¬ (20 ≤ 1) := by decide

/-- C1 amended: the clamp to hvdcp_pulse_count_max applies only to the
step-up branch of smb235x_set_hvdcp3_voltage; the step-down branch issues
up to (hvdcp3_voltage_uv − target)/200 mV pulses with no clamp. -/
theorem hvdcp3_pulse_count_bounds (chip : Chip) (v : Int) (env : HvdcpEnv) :
    (smb235x_set_hvdcp3_voltage chip v env).inc_pulses ≤ chip.hvdcp_pulse_count_max.toNat
    ∧ (smb235x_set_hvdcp3_voltage chip v env).dec_pulses
        ≤ ((chip.hvdcp3_voltage_uv - v).tdiv QC3_VOLTAGE_STEPS_UV).toNat := by
  unfold smb235x_set_hvdcp3_voltage
  by_cases h1 : v < BASED_VOLTAGE_UV
  · simp [h1]
  · by_cases h2 : chip.based_hvdcp_voltage_uv < v
    · simp only [h1, h2, if_true, if_false]
      by_cases hcl : chip.hvdcp_pulse_count_max <
          (v - chip.based_hvdcp_voltage_uv).tdiv QC3_VOLTAGE_STEPS_UV
      · simp only [hcl, if_true]
        constructor
        · split <;> simpa using runPulses_fst_le _ _
        · split <;> simp
      · simp only [hcl, if_false]
        have hmono := Int.toNat_le_toNat (Int.not_lt.mp hcl)
        constructor
        · split <;> simpa using Nat.le_trans (runPulses_fst_le _ _) hmono
        · split <;> simp
    · simp only [h1, h2, if_false]
      constructor
      · split <;> simp
      · split <;> simpa using runPulses_fst_le _ _

/-- C5 counterexample: a failed power-path read (the read that computes
usb_online) does not make smb235x_get_chg_type fail; it returns rc 0 with
the UNKNOWN type, exactly as for an unplugged cable. -/
theorem detect_power_path_failure_success_cex :
    smb235x_get_chg_type chipDefaults ⟨none, none, none⟩
      = some { chipDefaults with
          charger_type := PsyVal.typeUnknown, usb_type := PsyVal.usbUnknown }
    ∧ (smb235x_get_chg_type chipDefaults ⟨none, none, none⟩).isSome = true := by decide

/-- C5 amended: smb235x_get_chg_type fails (returns a negative rc) exactly
when the port is online, the tcpm query does not short-circuit detection,
and the APSD result status read fails; a failed power-path read is
swallowed and reported as offline success. -/
theorem get_chg_type_error_iff_apsd_read_fails (chip : Chip) (inp : DetectInput) :
    smb235x_get_chg_type chip inp = none
      ↔ (smb235x_get_usb_online inp.power_path = true
          ∧ (inp.tcpm_usb_type = none ∨ inp.tcpm_usb_type = some PsyVal.usbC)
          ∧ inp.apsd_result = none) := by
  rcases inp with ⟨pp, t, a⟩
  unfold smb235x_get_chg_type
  dsimp only
  by_cases ho : smb235x_get_usb_online pp = false
  · simp [ho]
  · have ho2 : smb235x_get_usb_online pp = true := by
      revert ho
      cases smb235x_get_usb_online pp <;> simp
    rcases t with _ | v
    · cases a <;> simp [ho, ho2]
    · by_cases hv : v = PsyVal.usbC
      · subst hv
        cases a <;> simp [ho, ho2]
      · cases a <;> simp [ho, ho2, hv]

/-- C6 counterexample: with the bms peer absent and the register write
failing, smb235x_batt_set_prop still replaces the cached float_volt_uv
(8.8 V default) with the caller value 8.0 V while reporting failure. -/
theorem batt_set_prop_cache_on_failure_cex :
    (smb235x_batt_set_prop chipDefaults BattProp.constant_charge_voltage_max none
      8000000 false).chip.float_volt_uv = 8000000
    ∧ (smb235x_batt_set_prop chipDefaults BattProp.constant_charge_voltage_max none
        8000000 false).rcOk = false
    ∧ chipDefaults.float_volt_uv = 8800000 := by decide

/-- C6 amended: for both writeable battery properties the bms peer value
wins over the caller value when the peer query succeeds, and the cached
field is assigned the selected value before the register write, so it keeps
that value whether or not the write succeeds (rc mirrors the write). -/
theorem batt_set_prop_peer_wins_cache_unconditional (chip : Chip) (bms_val : Option Int)
    (pval : Int) (w : Bool) :
    (smb235x_batt_set_prop chip BattProp.constant_charge_voltage_max bms_val pval
        w).chip.float_volt_uv = bms_val.getD pval
    ∧ (smb235x_batt_set_prop chip BattProp.constant_charge_voltage_max bms_val pval
        w).rcOk = w
    ∧ (smb235x_batt_set_prop chip BattProp.constant_charge_current_max bms_val pval
        w).chip.fastchg_curr_ua = bms_val.getD pval
    ∧ (smb235x_batt_set_prop chip BattProp.constant_charge_current_max bms_val pval
        w).rcOk = w := by
  cases bms_val <;>
    simp [smb235x_batt_set_prop, smb235x_set_fv, smb235x_set_fcc, Option.getD]

/-- C7 counterexample: with the port offline and the charger status
register decoding to INHIBIT_CHARGE (not TERMINATE_CHARGE), the battery
status is FULL, not DISCHARGING. -/
theorem offline_inhibit_full_cex :
    smb235x_get_prop_battery_status (some ⟨false, false⟩) (some ChgStat.INHIBIT_CHARGE)
      = some BattStatus.FULL
    ∧ ChgStat.INHIBIT_CHARGE ≠ ChgStat.TERMINATE_CHARGE
    ∧ BattStatus.FULL ≠ BattStatus.DISCHARGING := by decide

/-- C7 amended: when usb_online is false the battery status is FULL exactly
for the TERMINATE_CHARGE and INHIBIT_CHARGE decoded states, and DISCHARGING
for every other decoded state. -/
theorem offline_status_full_iff_terminate_or_inhibit (pp : Option PowerPathStatus)
    (s : ChgStat) (h : smb235x_get_usb_online pp = false) :
    smb235x_get_prop_battery_status pp (some s)
      = some (if s = ChgStat.TERMINATE_CHARGE ∨ s = ChgStat.INHIBIT_CHARGE
              then BattStatus.FULL else BattStatus.DISCHARGING) := by
  unfold smb235x_get_prop_battery_status
  cases s <;> simp [h]

/-- Witness for the C7 amended theorem at a concrete offline input. -/
theorem offline_status_witness :
    smb235x_get_usb_online (some ⟨false, true⟩) = false
    ∧ smb235x_get_prop_battery_status (some ⟨false, true⟩) (some ChgStat.TAPER_CHARGE)
        = some BattStatus.DISCHARGING := by
  refine ⟨by decide, ?_⟩
  have h := offline_status_full_iff_terminate_or_inhibit (some ⟨false, true⟩)
    ChgStat.TAPER_CHARGE (by decide)
  exact h.trans (by decide)

/-- C9: each reconciler cycle writes soc = DIV_ROUND_CLOSEST(capacity*255,
100) to the step-charge SOC register, which is the nearest integer to
capacity*255/100 (ties rounded up): the written code differs from the exact
scaling by at most half a step. -/
theorem update_soc_nearest_rounding (c : Int) (h0 : 0 ≤ c) (h1 : c ≤ 100) :
    (smb235x_update_soc (some c) true true).soc_written
        = some (((c * 255 + 50).tdiv 100).toNat)
    ∧ (((c * 255 + 50).tdiv 100) * 100 - c * 255).natAbs ≤ 50 := by
  interval_cases c <;> decide

/-- Witness for the C9 theorem: capacity 50 maps to 128 and capacity 100 to
255. -/
theorem update_soc_nearest_rounding_witness :
    (smb235x_update_soc (some 50) true true).soc_written = some 128
    ∧ (smb235x_update_soc (some 100) true true).soc_written = some 255 := by
  have h50 := update_soc_nearest_rounding 50 (by decide) (by decide)
  have h100 := update_soc_nearest_rounding 100 (by decide) (by decide)
  exact ⟨h50.1.trans (by decide), h100.1.trans (by decide)⟩

theorem applyApsdBits_charger_type (chip : Chip) (s : ApsdResult)
    (hs : hasApsdBit s = true) :
    (applyApsdBits chip s).charger_type = lastMatchingType s := by
  rcases s with ⟨f, d, o, c, sp, q3, q2⟩
  cases f <;> cases d <;> cases o <;> cases c <;> cases sp <;> cases q3 <;> cases q2 <;>
    simp_all [applyApsdBits, lastMatchingType, hasApsdBit]

theorem applyApsdBits_preserves (chip : Chip) (s : ApsdResult) :
    (applyApsdBits chip s).hvdcp3_voltage_uv = chip.hvdcp3_voltage_uv
    ∧ (applyApsdBits chip s).based_hvdcp_voltage_uv = chip.based_hvdcp_voltage_uv
    ∧ (applyApsdBits chip s).pd_active = chip.pd_active
    ∧ (applyApsdBits chip s).sdp_icl_ua = chip.sdp_icl_ua
    ∧ (applyApsdBits chip s).hvdcp_pulse_count_max = chip.hvdcp_pulse_count_max := by
  rcases s with ⟨f, d, o, c, sp, q3, q2⟩
  cases f <;> cases d <;> cases o <;> cases c <;> cases sp <;> cases q3 <;> cases q2 <;>
    simp [applyApsdBits]

theorem get_chg_type_preserves {chip : Chip} {inp : DetectInput} {c1 : Chip}
    (h : smb235x_get_chg_type chip inp = some c1) :
    c1.hvdcp3_voltage_uv = chip.hvdcp3_voltage_uv
    ∧ c1.based_hvdcp_voltage_uv = chip.based_hvdcp_voltage_uv
    ∧ c1.pd_active = chip.pd_active
    ∧ c1.sdp_icl_ua = chip.sdp_icl_ua
    ∧ c1.hvdcp_pulse_count_max = chip.hvdcp_pulse_count_max := by
  rcases inp with ⟨pp, t, a⟩
  unfold smb235x_get_chg_type at h
  dsimp only at h
  by_cases ho : smb235x_get_usb_online pp = false
  · rw [if_pos ho] at h
    cases h
    simp
  · rw [if_neg ho] at h
    rcases t with _ | v
    · rcases a with _ | s
      · cases h
      · cases h
        exact applyApsdBits_preserves chip s
    · dsimp only at h
      by_cases hv : v = PsyVal.usbC
      · subst hv
        simp only [ne_eq, not_true_eq_false, if_false] at h
        rcases a with _ | s
        · cases h
        · cases h
          exact applyApsdBits_preserves chip s
      · rw [if_pos hv] at h
        cases h
        simp

theorem set_hvdcp3_voltage_preserves (chip : Chip) (v : Int) (env : HvdcpEnv) :
    (smb235x_set_hvdcp3_voltage chip v env).chip.pd_active = chip.pd_active
    ∧ (smb235x_set_hvdcp3_voltage chip v env).chip.charger_type = chip.charger_type := by
  unfold smb235x_set_hvdcp3_voltage
  by_cases h1 : v < BASED_VOLTAGE_UV
  · simp [h1]
  · by_cases h2 : chip.based_hvdcp_voltage_uv < v
    · simp only [h1, h2, if_true, if_false]
      constructor <;> (split <;> split <;> simp)
    · simp only [h1, h2, if_false]
      constructor <;> (split <;> simp)

theorem apsdIclTable_chip_pd {c2 : Chip} {env : ApsdEnv} {icl0 : Int} {c3 : Chip}
    (h : apsdIclTable c2 env = some (icl0, c3)) :
    c3.pd_active = c2.pd_active := by
  unfold apsdIclTable at h
  cases hc : c2.charger_type <;> rw [hc] at h
  case typeUSB =>
    by_cases hs : c2.sdp_icl_ua ≠ 0
    · rw [if_pos hs] at h
      cases h
      rfl
    · rw [if_neg hs] at h
      cases h
      rfl
  case typeUSB_HVDCP =>
    by_cases h9 : env.force9v_ok = true
    · simp only [h9, if_true] at h
      cases h
      rfl
    · simp only [h9] at h
      simp at h
  case typeUSB_HVDCP_3 =>
    cases h
    exact (set_hvdcp3_voltage_preserves c2 c2.hvdcp3_voltage_uv ⟨env.inc_ok, env.dec_ok⟩).1
  all_goals
    cases h
    rfl

theorem apsdIclTable_chip_eq {c2 : Chip} {env : ApsdEnv} {icl0 : Int} {c3 : Chip}
    (hne : c2.charger_type ≠ PsyVal.typeUSB_HVDCP_3)
    (h : apsdIclTable c2 env = some (icl0, c3)) :
    c3 = c2 := by
  unfold apsdIclTable at h
  cases hc : c2.charger_type <;> rw [hc] at h
  case typeUSB =>
    by_cases hs : c2.sdp_icl_ua ≠ 0
    · rw [if_pos hs] at h
      cases h
      rfl
    · rw [if_neg hs] at h
      cases h
      rfl
  case typeUSB_HVDCP =>
    by_cases h9 : env.force9v_ok = true
    · simp only [h9, if_true] at h
      cases h
      rfl
    · simp only [h9] at h
      simp at h
  case typeUSB_HVDCP_3 =>
    exact absurd hc hne
  all_goals
    cases h
    rfl

theorem apsdIclTable_isSome (c2 : Chip) (env : ApsdEnv) (h9 : env.force9v_ok = true) :
    ∃ p, apsdIclTable c2 env = some p := by
  unfold apsdIclTable
  cases c2.charger_type <;> simp [h9]
  by_cases hz : c2.sdp_icl_ua = 0 <;> simp [hz]

/-- C2 counterexample: with a stale negotiated voltage of 8.0 V and a
detection run resolving to DCP, the APSD-done handler re-baselines
based_hvdcp_voltage_uv to 5.0 V but leaves hvdcp3_voltage_uv at 8.0 V
instead of resetting it to the 9.0 V default. -/
theorem apsd_done_keeps_stale_hvdcp3_cex :
    (smb235x_handle_apsd_done chipStaleHvdcp3 true envDcpNoPd).chip.charger_type
        = PsyVal.typeUSB_DCP
    ∧ (smb235x_handle_apsd_done chipStaleHvdcp3 true envDcpNoPd).chip.hvdcp3_voltage_uv
        = 8000000
    ∧ (smb235x_handle_apsd_done chipStaleHvdcp3 true envDcpNoPd).chip.hvdcp3_voltage_uv
        ≠ QC3_DEFAULT_VOLTAGE_UV
    ∧ (smb235x_handle_apsd_done chipStaleHvdcp3 true envDcpNoPd).chip.based_hvdcp_voltage_uv
        = BASED_VOLTAGE_UV := by decide

/-- C2 amended: when the APSD-done handler runs detection and the result is
not HVDCP3, only based_hvdcp_voltage_uv is re-baselined (to the 5.0 V
base); hvdcp3_voltage_uv keeps its prior value (its 9.0 V default is
established only by smb235x_enable_apsd during initialization). -/
theorem apsd_done_rebaseline_only_base (chip : Chip) (env : ApsdEnv) (c1 : Chip)
    (h1 : smb235x_get_chg_type chip env.detect = some c1)
    (h2 : c1.charger_type ≠ PsyVal.typeUSB_HVDCP_3) :
    (smb235x_handle_apsd_done chip true env).chip.based_hvdcp_voltage_uv = BASED_VOLTAGE_UV
    ∧ (smb235x_handle_apsd_done chip true env).chip.hvdcp3_voltage_uv
        = chip.hvdcp3_voltage_uv := by
  have hpres := get_chg_type_preserves h1
  unfold smb235x_handle_apsd_done
  simp only [h1, ne_eq, h2, not_false_eq_true, if_true, Bool.true_eq_false, if_false]
  rcases htab : apsdIclTable { c1 with based_hvdcp_voltage_uv := BASED_VOLTAGE_UV } env
      with _ | ⟨icl0, c3⟩
  · simp [hpres.1]
  · have hc3 : c3 = { c1 with based_hvdcp_voltage_uv := BASED_VOLTAGE_UV } :=
      apsdIclTable_chip_eq (by simpa using h2) htab
    subst hc3
    rcases hcm : env.tcpm_current_max with _ | v <;>
      by_cases hpd : c1.pd_active = true <;>
        simp [hcm, hpd, hpres.1]

/-- Witness for the C2 amended theorem at the concrete stale-voltage
scenario. -/
theorem apsd_done_rebaseline_only_base_witness :
    (smb235x_handle_apsd_done chipStaleHvdcp3 true envDcpNoPd).chip.based_hvdcp_voltage_uv
        = BASED_VOLTAGE_UV
    ∧ (smb235x_handle_apsd_done chipStaleHvdcp3 true envDcpNoPd).chip.hvdcp3_voltage_uv
        = chipStaleHvdcp3.hvdcp3_voltage_uv := by
  exact apsd_done_rebaseline_only_base chipStaleHvdcp3 envDcpNoPd
    { chipStaleHvdcp3 with
        charger_type := PsyVal.typeUSB_DCP, usb_type := PsyVal.usbDCP }
    (by decide) (by decide)

/-- C3: in the APSD-done handler, when pd_active holds and the tcpm
CURRENT_MAX query succeeds with value v, the input current limit finally
handed to smb235x_set_icl_sw is v/1000 (µA to mA), discarding the per-type
table value (the force9v_ok hypothesis rules out the early return of a
failed HVDCP2 9 V write, which programs nothing at all). -/
theorem apsd_done_pd_override_icl (chip : Chip) (env : ApsdEnv) (c1 : Chip) (v : Int)
    (h1 : smb235x_get_chg_type chip env.detect = some c1)
    (hpd : chip.pd_active = true)
    (h9 : env.force9v_ok = true)
    (hcm : env.tcpm_current_max = some v) :
    (smb235x_handle_apsd_done chip true env).icl_call = some (v.tdiv MICRO_TO_MILLI)
    ∧ (smb235x_handle_apsd_done chip true env).icl_out
        = some (smb235x_set_icl_sw (v.tdiv MICRO_TO_MILLI) env.icl) := by
  have hpres := get_chg_type_preserves h1
  unfold smb235x_handle_apsd_done
  simp only [h1, Bool.true_eq_false, if_false]
  by_cases h2 : c1.charger_type = PsyVal.typeUSB_HVDCP_3
  · simp only [ne_eq, h2, not_true_eq_false, if_false]
    obtain ⟨⟨icl0, c3⟩, htab⟩ := apsdIclTable_isSome c1 env h9
    rw [htab]
    have hc3pd : c3.pd_active = true := by
      rw [apsdIclTable_chip_pd htab, hpres.2.2.1]
      exact hpd
    simp [hc3pd, hcm]
  · simp only [ne_eq, h2, not_false_eq_true, if_true]
    obtain ⟨⟨icl0, c3⟩, htab⟩ :=
      apsdIclTable_isSome { c1 with based_hvdcp_voltage_uv := BASED_VOLTAGE_UV } env h9
    rw [htab]
    have hc3pd : c3.pd_active = true := by
      rw [apsdIclTable_chip_pd htab]
      show ({ c1 with based_hvdcp_voltage_uv := BASED_VOLTAGE_UV } : Chip).pd_active = true
      rw [show ({ c1 with based_hvdcp_voltage_uv := BASED_VOLTAGE_UV } : Chip).pd_active
          = c1.pd_active from rfl, hpres.2.2.1]
      exact hpd
    simp [hc3pd, hcm]

/-- Witness for the C3 theorem: a peer CURRENT_MAX of 900000 µA after an
autonomous DCP detection yields a programmed ICL of 900 mA. -/
theorem apsd_done_pd_override_icl_witness :
    (smb235x_handle_apsd_done chipPdActive true envDcpPd900).icl_call = some 900 := by
  have h := apsd_done_pd_override_icl chipPdActive envDcpPd900
    { chipPdActive with
        charger_type := PsyVal.typeUSB_DCP, usb_type := PsyVal.usbDCP }
    900000 (by decide) (by decide) (by decide) (by decide)
  exact h.1.trans (by decide)

/-- C4: with the port online and the tcpm peer absent or reporting the
generic Type-C sentinel, the detected charger type is the mapping of the
last matching APSD status bit in the fixed order FLOAT, DCP, OCP, CDP,
SDP, QC 3.0, QC 2.0 (so simultaneous FLOAT and DCP bits yield DCP). -/
theorem chg_type_last_matching_bit (chip : Chip) (t : Option PsyVal) (s : ApsdResult)
    (ht : t = none ∨ t = some PsyVal.usbC) (hs : hasApsdBit s = true) :
    (smb235x_get_chg_type chip ⟨some ⟨true, true⟩, t, some s⟩).map Chip.charger_type
      = some (lastMatchingType s) := by
  have hc := applyApsdBits_charger_type chip s hs
  rcases ht with h | h <;> subst h <;>
    simp [smb235x_get_chg_type, smb235x_get_usb_online, hc]

/-- Witness for the C4 theorem: both FLOAT and DCP bits set yield DCP. -/
theorem chg_type_last_matching_bit_witness :
    (smb235x_get_chg_type chipDefaults ⟨some ⟨true, true⟩, none, some floatDcpBits⟩).map
      Chip.charger_type = some PsyVal.typeUSB_DCP := by
  have h := chg_type_last_matching_bit chipDefaults none floatDcpBits (Or.inl rfl) (by decide)
  exact h.trans (by decide)

/-- C8: with in-range inputs, the fast-charge and max-fast-charge register
codes are (ua/1000/50)+1 with the +1 bias, the trickle-charge and
pre-charge codes are ua/1000/50 with no bias, and the software input
current limit code is ma/50 with no bias. -/
theorem charge_current_register_codes (chip : Chip) (ma : Int)
    (hf0 : 0 ≤ (chip.fastchg_curr_ua.tdiv 1000).tdiv 50 + 1)
    (hf1 : (chip.fastchg_curr_ua.tdiv 1000).tdiv 50 + 1 < 256)
    (hm0 : 0 ≤ (chip.max_fcc_ua.tdiv 1000).tdiv 50 + 1)
    (hm1 : (chip.max_fcc_ua.tdiv 1000).tdiv 50 + 1 < 256)
    (ht0 : 0 ≤ (chip.trickle_charge_current_ua.tdiv 1000).tdiv 50)
    (ht1 : (chip.trickle_charge_current_ua.tdiv 1000).tdiv 50 < 256)
    (hp0 : 0 ≤ (chip.pre_charge_current_ua.tdiv 1000).tdiv 50)
    (hp1 : (chip.pre_charge_current_ua.tdiv 1000).tdiv 50 < 256)
    (hi0 : 0 ≤ ma.tdiv 50)
    (hi1 : ma.tdiv 50 < 256) :
    (smb235x_config_chg_current_voltage chip cfgAllOk).fcc_code
        = some (((chip.fastchg_curr_ua.tdiv 1000).tdiv 50 + 1).toNat)
    ∧ (smb235x_config_chg_current_voltage chip cfgAllOk).max_fcc_code
        = some (((chip.max_fcc_ua.tdiv 1000).tdiv 50 + 1).toNat)
    ∧ (smb235x_config_chg_current_voltage chip cfgAllOk).trickle_code
        = some (((chip.trickle_charge_current_ua.tdiv 1000).tdiv 50).toNat)
    ∧ (smb235x_config_chg_current_voltage chip cfgAllOk).pre_code
        = some (((chip.pre_charge_current_ua.tdiv 1000).tdiv 50).toNat)
    ∧ (smb235x_set_icl_sw ma iclAllOk).code_written = some ((ma.tdiv 50).toNat) := by
  refine ⟨?_, ?_, ?_, ?_, ?_⟩ <;>
    simp [smb235x_config_chg_current_voltage, smb235x_set_icl_sw, cfgAllOk, iclAllOk,
      MICRO_TO_MILLI, CURRENT_STEP_MA, u8ofInt_eq_toNat hf0 hf1, u8ofInt_eq_toNat hm0 hm1,
      u8ofInt_eq_toNat ht0 ht1, u8ofInt_eq_toNat hp0 hp1, u8ofInt_eq_toNat hi0 hi1]

/-- Witness for the C8 theorem at the compiled-in default currents: 3.25 A
fast charge maps to code 66 (65 + bias 1), 50 mA trickle to 1, 750 mA
pre-charge to 15, and a 1500 mA input limit to 30. -/
theorem charge_current_register_codes_witness :
    (smb235x_config_chg_current_voltage chipDefaults cfgAllOk).fcc_code = some 66
    ∧ (smb235x_config_chg_current_voltage chipDefaults cfgAllOk).max_fcc_code = some 66
    ∧ (smb235x_config_chg_current_voltage chipDefaults cfgAllOk).trickle_code = some 1
    ∧ (smb235x_config_chg_current_voltage chipDefaults cfgAllOk).pre_code = some 15
    ∧ (smb235x_set_icl_sw 1500 iclAllOk).code_written = some 30 := by
  have h := charge_current_register_codes chipDefaults 1500 (by decide) (by decide)
    (by decide) (by decide) (by decide) (by decide) (by decide) (by decide)
    (by decide) (by decide)
  exact ⟨h.1.trans (by decide), h.2.1.trans (by decide), h.2.2.1.trans (by decide),
    h.2.2.2.1.trans (by decide), h.2.2.2.2.trans (by decide)⟩

/-- C10: a failed power-path status read makes smb235x_get_usb_online
report false, and every operation gated on usb_online then behaves exactly
as for an unplugged cable and reports success: charger-type detection
yields UNKNOWN with rc 0, battery status takes the offline branch, and the
usb current-max and voltage getters report 0 with rc 0. -/
theorem power_path_failure_treated_offline (chip : Chip) (t : Option PsyVal)
    (a : Option ApsdResult) (s : ChgStat) (r : UsbIclReads)
    (qc : Except Int QcStatus) (tv : Except Int Int) :
    smb235x_get_usb_online none = false
    ∧ smb235x_get_chg_type chip ⟨none, t, a⟩
        = some { chip with
            charger_type := PsyVal.typeUnknown, usb_type := PsyVal.usbUnknown }
    ∧ smb235x_get_prop_battery_status none (some s)
        = some (if s = ChgStat.TERMINATE_CHARGE ∨ s = ChgStat.INHIBIT_CHARGE
                then BattStatus.FULL else BattStatus.DISCHARGING)
    ∧ smb235x_get_prop_usb_icl none r = some 0
    ∧ smb235x_get_prop_usb_voltage chip none qc tv = ⟨false, 0⟩ := by
  refine ⟨rfl, ?_, ?_, ?_, ?_⟩
  · simp [smb235x_get_chg_type, smb235x_get_usb_online]
  · cases s <;> rfl
  · simp [smb235x_get_prop_usb_icl, smb235x_get_usb_online]
  · simp [smb235x_get_prop_usb_voltage, smb235x_get_usb_online]
